import Mathlib

/-!
Shallow embedding of the platform-abstraction core of the screen-capturer
repository (backend selection, monitor/window enumeration, resource guards),
together with theorems settling the specification claims against it.

Sources embedded:
- src/linux/mod.rs          (wayland_detect, capture_screen, capture_screen_area)
- src/macos/impl_window.rs  (ImplWindow::new, ImplWindow::all)
- src/windows/impl_monitor.rs (ImplMonitor::new, ImplMonitor::all, scale factors)
- src/windows/boxed.rs      (BoxHDC, BoxHBITMAP, BoxMonitorHDC and their Drop impls)

Machine integers are modelled as Nat/Int with explicit wrapping where the
source casts; f64/f32 quantities are modelled as exact rationals; fallible
native calls are inputs of type Option/Except describing the OS behaviour
for the call at hand.
-/

namespace ScreenCapturer

/-- Truncating cast of a rational toward zero, as Rust f64-to-integer casts do
before saturation. -/
def ratTrunc (q : ℚ) : Int :=
  if q < 0 then -((-q).floor) else q.floor

/-- Rust saturating cast f64 to u32: NaN cannot arise for rationals; negative
values clamp to 0, values past the top clamp to 2^32 - 1, others truncate. -/
def f64ToU32 (q : ℚ) : Nat :=
  if q ≤ 0 then 0 else min (2 ^ 32 - 1) q.floor.toNat

/-- Rust saturating cast f64 to i32. -/
def f64ToI32 (q : ℚ) : Int :=
  max (-(2 ^ 31)) (min (2 ^ 31 - 1) (ratTrunc q))

/-- Rust bit-reinterpreting cast of a signed integer value to u32
(the source writes value as u32 on i32 and isize values). -/
def i32ToU32 (i : Int) : Nat :=
  (i % (2 ^ 32)).toNat

/-- Substring containment on character lists, used to embed Rust
str::contains. -/
def charListPrefixOf : List Char → List Char → Bool
  | [], _ => true
  | _ :: _, [] => false
  | a :: as, b :: bs => a == b && charListPrefixOf as bs

/-- Embeds Rust str::contains: pat occurs contiguously inside s. -/
def strContains (s pat : String) : Bool :=
  (List.range (s.toList.length + 1)).any fun i =>
    charListPrefixOf pat.toList (s.toList.drop i)

namespace Linux

/-- The two Linux capture backends of src/linux/mod.rs. -/
inductive Backend where
  | wayland
  | xorg
deriving DecidableEq, Repr

/-- Embeds wayland_detect of src/linux/mod.rs. The two inputs are the process
environment values of XDG_SESSION_TYPE and WAYLAND_DISPLAY; a missing variable
is none and var_os(..).unwrap_or_default() turns it into the empty string. -/
def waylandDetect (xdgSessionType waylandDisplay : Option String) : Bool :=
  (xdgSessionType.getD "") == "wayland"
    || strContains ((waylandDisplay.getD "").toLower) "wayland"

/-- Which backend capture_screen of src/linux/mod.rs dispatches to. -/
def captureScreenBackend (xdg wd : Option String) : Backend :=
  if waylandDetect xdg wd then .wayland else .xorg

/-- Which backend capture_screen_area of src/linux/mod.rs dispatches to. -/
def captureScreenAreaBackend (xdg wd : Option String) : Backend :=
  if waylandDetect xdg wd then .wayland else .xorg

/-- Embeds capture_screen of src/linux/mod.rs: the adapter results are inputs
and the selected one is returned, with the backend that was chosen. -/
def captureScreen {Image : Type} (xdg wd : Option String)
    (waylandResult xorgResult : Option Image) : Option Image × Backend :=
  if waylandDetect xdg wd then (waylandResult, .wayland) else (xorgResult, .xorg)

end Linux

namespace MacOS

/-- A Core Graphics point, coordinates modelled as exact rationals. -/
structure CGPoint where
  x : ℚ
  y : ℚ
deriving DecidableEq, Repr

/-- A Core Graphics rectangle (origin and size), modelled as exact rationals. -/
structure CGRect where
  x : ℚ
  y : ℚ
  w : ℚ
  h : ℚ
deriving DecidableEq, Repr

/-- CGRectContainsPoint as called through display_bounds.contains in
ImplWindow::new: the point lies in the half-open rectangle. -/
def CGRect.containsPoint (r : CGRect) (p : CGPoint) : Bool :=
  decide (r.x ≤ p.x) && decide (p.x < r.x + r.w)
    && decide (r.y ≤ p.y) && decide (p.y < r.y + r.h)

/-- CGRectIntersectsRect as called through display_bounds.is_intersects in
ImplWindow::new: the rectangles overlap with positive extent on both axes. -/
def CGRect.intersects (r s : CGRect) : Bool :=
  decide (r.x < s.x + s.w) && decide (s.x < r.x + r.w)
    && decide (r.y < s.y + s.h) && decide (s.y < r.y + r.h)

/-- The fields of the macOS ImplMonitor that ImplWindow::new consumes:
the display bounds rectangle (cg_display.bounds()) and the monitor's
width/height in u32, plus the display id identifying the monitor. -/
structure ImplMonitor where
  id : Nat
  bounds : CGRect
  width : Nat
  height : Nat
deriving DecidableEq, Repr

/-- The CFDictionary describing one native window entry. Each field is the
result of the corresponding CFDictionary lookup/decode; none models a null
value or a failed decode (get_cf_number_i32_value, get_cf_string_value,
get_cf_bool_value, get_window_cg_rect each return an error in that case). -/
structure WindowDict where
  windowNumber : Option Int
  ownerPID : Option Int
  boundsDict : Option CGRect
  isOnscreen : Option Bool
  name : Option String
  ownerName : Option String
  sharingState : Option Int
deriving DecidableEq, Repr

/-- The normalized Window record of src/macos/impl_window.rs. -/
structure ImplWindow where
  id : Nat
  title : String
  app_name : String
  pid : Nat
  current_monitor : ImplMonitor
  x : Int
  y : Int
  z : Int
  width : Nat
  height : Nat
  is_minimized : Bool
  is_maximized : Bool
deriving DecidableEq, Repr

/-- kCGWindowSharingNone. -/
def kCGWindowSharingNone : Nat := 0

/-- The body of ImplWindow::new once every fallible decode has succeeded:
a is kCGWindowNumber, b is kCGWindowOwnerPID, r the decoded window bounds,
os kCGWindowIsOnscreen, p the primary monitor (ImplMonitor::new of the main
display). Monitor resolution, the maximized heuristic and the minimized flag
are exactly the source's expressions. -/
def ImplWindow.newCore (a b : Int) (r : CGRect) (os : Bool) (p : ImplMonitor)
    (impl_monitors : List ImplMonitor) (window_name window_owner_name : String)
    (z : Int) : ImplWindow :=
  let cg_point : CGPoint := ⟨r.x + r.w / 2, r.y + r.h / 2⟩
  let impl_monitor := (impl_monitors.find? fun m =>
      m.bounds.containsPoint cg_point || m.bounds.intersects r).getD p
  let is_maximized := decide (impl_monitor.width ≤ f64ToU32 r.w)
      && decide (impl_monitor.height ≤ f64ToU32 r.h)
  let is_minimized := !os && !is_maximized
  { id := i32ToU32 a
    title := window_name
    app_name := window_owner_name
    pid := i32ToU32 b
    current_monitor := impl_monitor
    x := f64ToI32 r.x
    y := f64ToI32 r.y
    z := z
    width := f64ToU32 r.w
    height := f64ToU32 r.h
    is_minimized := is_minimized
    is_maximized := is_maximized }

/-- Embeds ImplWindow::new of src/macos/impl_window.rs. Every ? on a fallible
decode is an Option bind; primary_monitor is the result of
ImplMonitor::new(CGDisplay::main().id), which can itself fail. -/
def ImplWindow.new (dict : WindowDict) (impl_monitors : List ImplMonitor)
    (window_name window_owner_name : String) (z : Int)
    (primary_monitor : Option ImplMonitor) : Option ImplWindow := do
  let a ← dict.windowNumber
  let b ← dict.ownerPID
  let r ← dict.boundsDict
  let p ← primary_monitor
  let os ← dict.isOnscreen
  pure (ImplWindow.newCore a b r os p impl_monitors window_name
    window_owner_name z)

/-- The diagnostic emitted by the log::error! call when ImplWindow::new fails
inside ImplWindow::all. -/
def logWindowNewFailed : String := "ImplWindow::new failed"

/-- One iteration of the loop body of ImplWindow::all at native index i of a
native list of num_windows entries: returns the window to push (if any) and
the diagnostics logged by this iteration. A none entry is a null dictionary.
The continue branches for a missing name, a missing owner name, the
StatusIndicator pseudo-window, an undecodable sharing state and an excluded
sharing state log nothing; only a failing ImplWindow::new logs. -/
def processEntry (impl_monitors : List ImplMonitor)
    (primary_monitor : Option ImplMonitor) (num_windows : Nat) (i : Nat)
    (entry : Option WindowDict) : Option ImplWindow × List String :=
  match entry with
  | none => (none, [])
  | some dict =>
    match dict.name with
    | none => (none, [])
    | some window_name =>
      match dict.ownerName with
      | none => (none, [])
      | some window_owner_name =>
        if window_name == "StatusIndicator"
            && window_owner_name == "Window Server" then
          (none, [])
        else
          match dict.sharingState with
          | none => (none, [])
          | some st =>
            if i32ToU32 st == kCGWindowSharingNone then
              (none, [])
            else
              match ImplWindow.new dict impl_monitors window_name
                  window_owner_name
                  ((num_windows : Int) - (i : Int) - 1) primary_monitor with
              | some w => (some w, [])
              | none => (none, [logWindowNewFailed])

/-- The for-loop of ImplWindow::all, starting at native index i: collects the
pushed windows in order and the logged diagnostics. -/
def windowLoop (impl_monitors : List ImplMonitor)
    (primary_monitor : Option ImplMonitor) (num_windows : Nat) :
    Nat → List (Option WindowDict) → List ImplWindow × List String
  | _, [] => ([], [])
  | i, e :: rest =>
    let pr := processEntry impl_monitors primary_monitor num_windows i e
    let tail := windowLoop impl_monitors primary_monitor num_windows
      (i + 1) rest
    (pr.1.toList ++ tail.1, pr.2 ++ tail.2)

/-- Embeds ImplWindow::all of src/macos/impl_window.rs. monitorsResult is the
result of ImplMonitor::all() (propagated by ?); primary_monitor is the result
of ImplMonitor::new(CGDisplay::main().id) used inside each ImplWindow::new;
native is the CGWindowListCopyWindowInfo array in front-to-back order, none
when that call returned null (the source then returns Ok with the empty
vector), with null dictionary entries as none. -/
def ImplWindow.all (monitorsResult : Except String (List ImplMonitor))
    (primary_monitor : Option ImplMonitor)
    (native : Option (List (Option WindowDict))) :
    Except String (List ImplWindow × List String) :=
  match monitorsResult with
  | .error e => .error e
  | .ok impl_monitors =>
    match native with
    | none => .ok ([], [])
    | some arr =>
      .ok (windowLoop impl_monitors primary_monitor arr.length 0 arr)

end MacOS

namespace Windows

/-- The fields of MONITORINFOEXW that the source reads: the flag word and the
device name (szDevice, already decoded to a string). -/
structure MonitorInfoExW where
  dwFlags : Nat
  szDevice : String
deriving DecidableEq, Repr

/-- MONITORINFOF_PRIMARY. -/
def MONITORINFOF_PRIMARY : Nat := 1

/-- DMDO_DEFAULT. -/
def DMDO_DEFAULT : Nat := 0

/-- DMDO_90. -/
def DMDO_90 : Nat := 1

/-- DMDO_180. -/
def DMDO_180 : Nat := 2

/-- DMDO_270. -/
def DMDO_270 : Nat := 3

/-- The fields of DEVMODEW that ImplMonitor::new reads after
EnumDisplaySettingsW succeeded. -/
structure DevModeW where
  posX : Int
  posY : Int
  pelsWidth : Nat
  pelsHeight : Nat
  displayOrientation : Nat
  displayFrequency : Nat
deriving DecidableEq, Repr

/-- The native behaviour feeding get_hi_dpi_scale_factor and the
GetDeviceCaps fallback of get_scale_factor for one monitor:
processIsDpiAwareness is the result of get_process_is_dpi_awareness (it can
fail), shcore the result of load_library("Shcore.dll"),
getDpiForMonitorAddr whether GetProcAddress found GetDpiForMonitor,
dpiQuery the GetDpiForMonitor result (dpi_x), and
desktopHorzRes/horzRes the two GetDeviceCaps values (these calls do not
fail). -/
structure DpiNative where
  processIsDpiAwareness : Except String Bool
  shcore : Except String Unit
  getDpiForMonitorAddr : Bool
  dpiQuery : Except String Nat
  desktopHorzRes : Int
  horzRes : Int
deriving Repr

/-- Embeds get_hi_dpi_scale_factor of src/windows/impl_monitor.rs. -/
def get_hi_dpi_scale_factor (native : DpiNative) : Except String ℚ :=
  match native.processIsDpiAwareness with
  | .error e => .error e
  | .ok current_process_is_dpi_awareness =>
    if !current_process_is_dpi_awareness then
      .error "Process not DPI aware"
    else
      match native.shcore with
      | .error e => .error e
      | .ok _ =>
        if !native.getDpiForMonitorAddr then
          .error "GetProcAddress GetDpiForMonitor failed"
        else
          match native.dpiQuery with
          | .error e => .error e
          | .ok dpi_x => .ok ((dpi_x : ℚ) / 96)

/-- Embeds get_scale_factor of src/windows/impl_monitor.rs: the hi-DPI result
if it succeeded, otherwise (with the error only logged) the ratio of
DESKTOPHORZRES to HORZRES read through a scoped device context; this branch
has no failure exit, so the function always returns Ok. -/
def get_scale_factor (native : DpiNative) : Except String ℚ :=
  match get_hi_dpi_scale_factor native with
  | .ok v => .ok v
  | .error _ =>
    .ok ((native.desktopHorzRes : ℚ) / (native.horzRes : ℚ))

/-- The native behaviour consumed by ImplMonitor::new for one HMONITOR:
monitorInfo is the GetMonitorInfoW result (none = failure), monitorName the
get_monitor_name result (none = failure), devMode the EnumDisplaySettingsW
result (none = failure), dpi the scale-factor inputs. -/
structure MonitorNative where
  monitorInfo : Option MonitorInfoExW
  monitorName : Option String
  devMode : Option DevModeW
  dpi : DpiNative
deriving Repr

/-- The normalized Monitor record of src/windows/impl_monitor.rs. -/
structure ImplMonitor where
  h_monitor : Int
  monitor_info_ex_w : MonitorInfoExW
  id : Nat
  name : String
  x : Int
  y : Int
  width : Nat
  height : Nat
  rotation : ℚ
  scale_factor : ℚ
  frequency : ℚ
  is_primary : Bool
deriving DecidableEq, Repr

/-- Embeds ImplMonitor::new of src/windows/impl_monitor.rs. The HMONITOR
handle value is an isize; id and the fallback name cast it as u32. -/
def ImplMonitor.new (h_monitor : Int) (native : MonitorNative) :
    Except String ImplMonitor :=
  match native.monitorInfo with
  | none => .error "GetMonitorInfoW failed"
  | some monitor_info_ex_w =>
    let name := native.monitorName.getD
      ("Unknown Monitor " ++ toString (i32ToU32 h_monitor))
    match native.devMode with
    | none => .error "EnumDisplaySettingsW failed"
    | some dev_mode_w =>
      let rotation : ℚ :=
        if dev_mode_w.displayOrientation = DMDO_90 then 90
        else if dev_mode_w.displayOrientation = DMDO_180 then 180
        else if dev_mode_w.displayOrientation = DMDO_270 then 270
        else 0
      match get_scale_factor native.dpi with
      | .error e => .error e
      | .ok scale_factor =>
        .ok { h_monitor := h_monitor
              monitor_info_ex_w := monitor_info_ex_w
              id := i32ToU32 h_monitor
              name := name
              x := dev_mode_w.posX
              y := dev_mode_w.posY
              width := dev_mode_w.pelsWidth
              height := dev_mode_w.pelsHeight
              rotation := rotation
              scale_factor := scale_factor
              frequency := (dev_mode_w.displayFrequency : ℚ)
              is_primary :=
                monitor_info_ex_w.dwFlags == MONITORINFOF_PRIMARY }

/-- The diagnostic emitted by the log::error! call when ImplMonitor::new
fails inside ImplMonitor::all. -/
def logMonitorNewFailed : String := "ImplMonitor::new failed"

/-- The for-loop of ImplMonitor::all over the collected HMONITOR handles:
collects the constructed monitors in order and the logged diagnostics. -/
def monitorLoop : List (Int × MonitorNative) → List ImplMonitor × List String
  | [] => ([], [])
  | (h, n) :: rest =>
    let tail := monitorLoop rest
    match ImplMonitor.new h n with
    | .ok m => (m :: tail.1, tail.2)
    | .error _ => (tail.1, logMonitorNewFailed :: tail.2)

/-- Embeds ImplMonitor::all of src/windows/impl_monitor.rs. The input is the
EnumDisplayMonitors outcome: none when the enumeration call itself failed
(the ? on .ok() then aborts the whole operation), otherwise the list of
handles with the native behaviour behind each. -/
def ImplMonitor.all
    (enumDisplayMonitors : Option (List (Int × MonitorNative))) :
    Except String (List ImplMonitor × List String) :=
  match enumDisplayMonitors with
  | none => .error "EnumDisplayMonitors failed"
  | some h_monitors => .ok (monitorLoop h_monitors)

/-- Resource guard BoxHDC of src/windows/boxed.rs. -/
structure BoxHDC where
  hdc : Int
deriving DecidableEq, Repr

/-- Resource guard BoxHBITMAP of src/windows/boxed.rs. -/
structure BoxHBITMAP where
  hbitmap : Int
deriving DecidableEq, Repr

/-- Resource guard BoxMonitorHDC of src/windows/boxed.rs. -/
structure BoxMonitorHDC where
  hwnd : Int
  hdc : Int
deriving DecidableEq, Repr

/-- A GDI release call emitted when a guard is dropped. -/
inductive GdiCall where
  | deleteDC (hdc : Int)
  | deleteObject (h : Int)
  | releaseDC (hwnd hdc : Int)
deriving DecidableEq, Repr

/-- The Drop impl for BoxHDC: DeleteDC(self.0). -/
def BoxHDC.dropCall (b : BoxHDC) : GdiCall := .deleteDC b.hdc

/-- The Drop impl for BoxHBITMAP: DeleteObject(self.0). -/
def BoxHBITMAP.dropCall (b : BoxHBITMAP) : GdiCall := .deleteObject b.hbitmap

/-- The Drop impl for BoxMonitorHDC: ReleaseDC(self.hwnd, self.hdc). -/
def BoxMonitorHDC.dropCall (b : BoxMonitorHDC) : GdiCall :=
  .releaseDC b.hwnd b.hdc

/-- BoxHDC::new of src/windows/boxed.rs: wraps the handle unconditionally. -/
def BoxHDC.new (hdc : Int) : BoxHDC := ⟨hdc⟩

/-- From<&[u16; 32]> for BoxHDC: wraps whatever CreateDCW returned, with no
validity check; the input is the CreateDCW result for the device name. -/
def BoxHDC.fromSzDevice (createDCWResult : Int) : BoxHDC :=
  BoxHDC.new createDCWResult

/-- From<&ImplWindow> for BoxHDC: wraps whatever GetWindowDC returned for the
window handle, with no validity check. -/
def BoxHDC.fromImplWindow (getWindowDCResult : Int) : BoxHDC :=
  BoxHDC.new getWindowDCResult

/-- HDC::is_invalid of the windows crate: the handle is null. -/
def hdcIsInvalid (hdc : Int) : Bool := hdc == 0

/-- BoxMonitorHDC::new of src/windows/boxed.rs: GetDC on the desktop window,
failing with an error before any guard is returned when the handle is
invalid. -/
def BoxMonitorHDC.new (getDesktopWindowResult getDCResult : Int) :
    Except String BoxMonitorHDC :=
  if hdcIsInvalid getDCResult then .error "GetDC is failed"
  else .ok ⟨getDesktopWindowResult, getDCResult⟩

/-- Rust scope-exit semantics for one guard: whatever the body produced
(success or early error return), its trace is extended by exactly the
guard's one drop call when the owning scope exits. -/
def scopeExit {E A : Type} (dropCall : GdiCall) (bodyResult : Except E A)
    (bodyCalls : List GdiCall) : Except E A × List GdiCall :=
  (bodyResult, bodyCalls ++ [dropCall])

/-- The resource kinds named by the specification of the guards. -/
inductive ResourceKind where
  | createdDC
  | windowDC
  | bitmap
deriving DecidableEq, Repr

/-- The destructor families of the three GDI release calls. -/
inductive DestructorKind where
  | deleteDC
  | deleteObject
  | releaseDC
deriving DecidableEq, Repr

/-- The destructor family a given GDI call belongs to. -/
def gdiCallKind : GdiCall → DestructorKind
  | .deleteDC _ => .deleteDC
  | .deleteObject _ => .deleteObject
  | .releaseDC _ _ => .releaseDC

/-- Modelled from the spec: the correct native destructor for each resource
kind, as the claim states it (DeleteDC for a created DC, DeleteObject for a
bitmap, ReleaseDC for a window DC); this mapping is also the pairing the
Windows GDI API documents for CreateDC/GetWindowDC/GetDC handles. -/
def specCorrectDestructor : ResourceKind → DestructorKind
  | .createdDC => .deleteDC
  | .windowDC => .releaseDC
  | .bitmap => .deleteObject

/-- The resource kind acquired by From<&[u16; 32]> for BoxHDC: CreateDCW
creates a device context, a created DC. -/
def boxHDCFromSzDeviceKind : ResourceKind := .createdDC

/-- The resource kind acquired by From<&ImplWindow> for BoxHDC: GetWindowDC
obtains the window device context of an existing window, a window DC. -/
def boxHDCFromImplWindowKind : ResourceKind := .windowDC

/-- The resource kind acquired by BoxMonitorHDC::new: GetDC obtains the
device context of the desktop window, a window DC. -/
def boxMonitorHDCKind : ResourceKind := .windowDC

end Windows

namespace MacOS

/-- A 1920x1080 monitor at the origin. -/
def mon0 : ImplMonitor := ⟨1, ⟨0, 0, 1920, 1080⟩, 1920, 1080⟩

/-- A native window entry whose every decode succeeds. -/
def goodDict : WindowDict :=
  ⟨some 7, some 100, some ⟨0, 0, 100, 100⟩, some true, some "A", some "App",
    some 1⟩

/-- A native window entry whose kCGWindowName lookup fails. -/
def noNameDict : WindowDict := { goodDict with name := none }

/-- The enumeration loop output on the singleton native list holding
goodDict. -/
def outC1 : List ImplWindow × List String :=
  windowLoop [mon0] (some mon0) 1 0 [some goodDict]

/-- The window ImplWindow::new constructs from goodDict. -/
def w0 : ImplWindow :=
  ImplWindow.newCore 7 100 ⟨0, 0, 100, 100⟩ true mon0 [mon0] "A" "App" 1

/-- A native window entry that survives every filter of the enumeration loop
but whose kCGWindowNumber decode fails, so ImplWindow::new fails on it. -/
def newFailDict : WindowDict := { goodDict with windowNumber := none }

/-- A monitor on the right whose bounds do not contain the test window's
center but do intersect its rectangle. -/
def mA : ImplMonitor := ⟨1, ⟨200, 0, 100, 100⟩, 100, 100⟩

/-- A monitor at the origin whose bounds contain the test window's center. -/
def mB : ImplMonitor := ⟨2, ⟨0, 0, 100, 100⟩, 100, 100⟩

/-- A window rectangle whose center (80, 25) lies in mB while the rectangle
reaches into mA. -/
def c7rect : CGRect := ⟨-60, 0, 280, 50⟩

/-- The native entry carrying c7rect. -/
def c7dict : WindowDict :=
  ⟨some 1, some 1, some c7rect, some true, some "W", some "O", some 1⟩

/-- The window ImplWindow::new constructs from c7dict over [mA, mB]. -/
def w7 : ImplWindow :=
  ImplWindow.newCore 1 1 c7rect true mB [mA, mB] "W" "O" 0

end MacOS

namespace Windows

/-- Scale-factor inputs of a process that is not DPI aware; the fallback
device-context ratio is 1920 / 1920. -/
def dpiUnaware : DpiNative := ⟨.ok false, .ok (), true, .ok 96, 1920, 1920⟩

/-- Scale-factor inputs of a DPI-aware process whose GetDpiForMonitor query
reports 96 dpi. -/
def dpiAware96 : DpiNative := ⟨.ok true, .ok (), true, .ok 96, 100, 100⟩

/-- A native display flagged primary by GetMonitorInfoW whose
EnumDisplaySettingsW call fails, so ImplMonitor::new fails on it. -/
def primNativeBad : MonitorNative := ⟨some ⟨1, "D1"⟩, some "P", none, dpiUnaware⟩

/-- A native display not flagged primary whose construction fully
succeeds. -/
def secNativeGood : MonitorNative :=
  ⟨some ⟨0, "D2"⟩, some "S", some ⟨0, 0, 1920, 1080, 0, 60⟩, dpiUnaware⟩

/-- The monitor ImplMonitor::new constructs from secNativeGood at handle 2:
the scale factor is the device-context fallback ratio 1920 / 1920. -/
def mSec : ImplMonitor :=
  ⟨2, ⟨0, "D2"⟩, ScreenCapturer.i32ToU32 2, "S", 0, 0, 1920, 1080, 0,
    ((1920 : Int) : ℚ) / ((1920 : Int) : ℚ), ((60 : Nat) : ℚ), false⟩

end Windows

/-! Helper lemmas shared by the claim theorems. -/

/-- Inversion for ImplWindow.new: a window is produced exactly when every
decode succeeded, and it is the newCore record of the decoded values. -/
theorem MacOS.ImplWindow.new_some_iff (dict : MacOS.WindowDict)
    (ms : List MacOS.ImplMonitor) (nm own : String) (z : Int)
    (pm : Option MacOS.ImplMonitor) (w : MacOS.ImplWindow) :
    MacOS.ImplWindow.new dict ms nm own z pm = some w ↔
      ∃ a b r p os, dict.windowNumber = some a ∧ dict.ownerPID = some b
        ∧ dict.boundsDict = some r ∧ pm = some p ∧ dict.isOnscreen = some os
        ∧ w = MacOS.ImplWindow.newCore a b r os p ms nm own z := by
  obtain ⟨wn, opid, bd, ons, nm2, own2, ss⟩ := dict
  rcases wn with _ | a <;> rcases opid with _ | b <;> rcases bd with _ | r <;>
    rcases pm with _ | p <;> rcases ons with _ | os <;>
      simp [MacOS.ImplWindow.new, eq_comm]

/-- The z field of the record ImplWindow.newCore builds is the z argument. -/
theorem MacOS.ImplWindow.newCore_z (a b : Int) (r : MacOS.CGRect) (os : Bool)
    (p : MacOS.ImplMonitor) (ms : List MacOS.ImplMonitor) (nm own : String)
    (z : Int) : (MacOS.ImplWindow.newCore a b r os p ms nm own z).z = z := rfl

/-- The minimized and maximized flags of a constructed window are never both
true: minimized is defined as not-onscreen AND not maximized. -/
theorem MacOS.ImplWindow.newCore_not_both (a b : Int) (r : MacOS.CGRect)
    (os : Bool) (p : MacOS.ImplMonitor) (ms : List MacOS.ImplMonitor)
    (nm own : String) (z : Int) :
    ¬((MacOS.ImplWindow.newCore a b r os p ms nm own z).is_minimized = true
      ∧ (MacOS.ImplWindow.newCore a b r os p ms nm own z).is_maximized
          = true) := by
  rintro ⟨hmin, hmax⟩
  simp only [MacOS.ImplWindow.newCore] at hmin hmax
  rw [hmax] at hmin
  simp at hmin

/-- If an iteration of the enumeration loop produced a window, then it came
from a successful ImplWindow::new call at z = num_windows - i - 1. -/
theorem MacOS.processEntry_some (ms : List MacOS.ImplMonitor)
    (pm : Option MacOS.ImplMonitor) (n i : Nat)
    (e : Option MacOS.WindowDict) (w : MacOS.ImplWindow)
    (h : (MacOS.processEntry ms pm n i e).1 = some w) :
    ∃ dict nm own, e = some dict
      ∧ MacOS.ImplWindow.new dict ms nm own
          ((n : Int) - (i : Int) - 1) pm = some w := by
  rcases e with _ | dict
  · simp [MacOS.processEntry] at h
  · rcases hn : dict.name with _ | nm
    · simp [MacOS.processEntry, hn] at h
    · rcases ho : dict.ownerName with _ | own
      · simp [MacOS.processEntry, hn, ho] at h
      · cases hstat : (nm == "StatusIndicator" && own == "Window Server")
        · rcases hs : dict.sharingState with _ | st
          · simp [MacOS.processEntry, hn, ho, hstat, hs] at h
          · cases hst : (ScreenCapturer.i32ToU32 st
                == MacOS.kCGWindowSharingNone)
            · rcases hnew : MacOS.ImplWindow.new dict ms nm own
                  ((n : Int) - (i : Int) - 1) pm with _ | w2
              · simp [MacOS.processEntry, hn, ho, hstat, hs, hst, hnew] at h
              · simp only [MacOS.processEntry, hn, ho, hstat, hs, hst, hnew,
                  Bool.false_eq_true, if_false, Option.some.injEq] at h
                exact ⟨dict, nm, own, rfl, h ▸ hnew⟩
            · simp [MacOS.processEntry, hn, ho, hstat, hs, hst] at h
        · simp [MacOS.processEntry, hn, ho, hstat] at h

/-- Every window collected by the enumeration loop came from a successful
ImplWindow::new call. -/
theorem MacOS.windowLoop_mem_new (ms : List MacOS.ImplMonitor)
    (pm : Option MacOS.ImplMonitor) (n : Nat) :
    ∀ (i : Nat) (es : List (Option MacOS.WindowDict))
      (w : MacOS.ImplWindow), w ∈ (MacOS.windowLoop ms pm n i es).1 →
      ∃ dict nm own z, MacOS.ImplWindow.new dict ms nm own z pm = some w
  | _, [], w => by simp [MacOS.windowLoop]
  | i, e :: rest, w => by
    intro hmem
    simp only [MacOS.windowLoop, List.mem_append] at hmem
    rcases hmem with hmem | hmem
    · rcases hpe : (MacOS.processEntry ms pm n i e).1 with _ | w2
      · rw [hpe] at hmem; simp at hmem
      · rw [hpe] at hmem
        simp only [Option.toList_some, List.mem_singleton] at hmem
        subst hmem
        obtain ⟨dict, nm, own, _, hnew⟩ :=
          MacOS.processEntry_some ms pm n i e w hpe
        exact ⟨dict, nm, own, _, hnew⟩
    · exact MacOS.windowLoop_mem_new ms pm n (i + 1) rest w hmem

/-- The z argument processEntry hands to ImplWindow::new is always
num_windows - i - 1, so a produced window carries that z value. -/
theorem MacOS.processEntry_z (ms : List MacOS.ImplMonitor)
    (pm : Option MacOS.ImplMonitor) (n i : Nat)
    (e : Option MacOS.WindowDict) (w : MacOS.ImplWindow)
    (h : (MacOS.processEntry ms pm n i e).1 = some w) :
    w.z = (n : Int) - (i : Int) - 1 := by
  obtain ⟨dict, nm, own, _, hnew⟩ := MacOS.processEntry_some ms pm n i e w h
  obtain ⟨a, b, r, p, os, _, _, _, _, _, hw⟩ :=
    (MacOS.ImplWindow.new_some_iff dict ms nm own _ pm w).mp hnew
  subst hw
  rfl

/-- The z values collected by the loop from index i on are a sublist of the
descending values n - 1 - j for j in range' i (length of the remaining
native list). -/
theorem MacOS.windowLoop_z_sublist (ms : List MacOS.ImplMonitor)
    (pm : Option MacOS.ImplMonitor) (n : Nat) :
    ∀ (i : Nat) (es : List (Option MacOS.WindowDict)),
      ((MacOS.windowLoop ms pm n i es).1.map fun w => w.z).Sublist
        ((List.range' i es.length).map
          fun (j : Nat) => (n : Int) - 1 - (j : Int))
  | _, [] => by simp [MacOS.windowLoop]
  | i, e :: rest => by
    have ih := MacOS.windowLoop_z_sublist ms pm n (i + 1) rest
    simp only [MacOS.windowLoop, List.length_cons, List.range'_succ,
      List.map_cons, List.map_append]
    rcases hpe : (MacOS.processEntry ms pm n i e).1 with _ | w
    · simp only [Option.toList_none, List.map_nil, List.nil_append]
      exact ih.cons _
    · have hz : w.z = (n : Int) - (i : Int) - 1 :=
        MacOS.processEntry_z ms pm n i e w hpe
      simp only [Option.toList_some, List.map_cons, List.map_nil,
        List.singleton_append]
      have hz2 : w.z = (n : Int) - 1 - (i : Int) := by omega
      rw [hz2]
      exact ih.cons₂ _

/-- The descending z values n - 1 - j over range n are a permutation of the
ascending values 0 .. n - 1 as integers. -/
theorem range_desc_perm (n : Nat) :
    ((List.range n).map fun (j : Nat) => (n : Int) - 1 - (j : Int)).Perm
      ((List.range n).map fun (j : Nat) => (j : Int)) := by
  have h2 : (List.range n).reverse
      = (List.range n).map (fun j => n - 1 - j) := by
    conv_lhs => rw [List.range_eq_range']
    rw [List.reverse_range']
    simp
  have h3 : ((List.range n).map fun (j : Nat) => (n : Int) - 1 - (j : Int))
      = ((List.range n).map (fun k : Nat => (k : Int))).reverse := by
    rw [← List.map_reverse, h2, List.map_map]
    apply List.map_congr_left
    intro j hj
    have hj2 : j < n := List.mem_range.mp hj
    simp only [Function.comp]
    omega
  rw [h3]
  exact List.reverse_perm _

/-- The monitors collected by the Windows enumeration loop are exactly the
native entries whose construction succeeded, in order. -/
theorem Windows.monitorLoop_windows :
    ∀ es : List (Int × Windows.MonitorNative),
      (Windows.monitorLoop es).1
        = es.filterMap
            (fun p => (Windows.ImplMonitor.new p.1 p.2).toOption)
  | [] => rfl
  | (h, n) :: rest => by
    have ih := Windows.monitorLoop_windows rest
    cases hnew : Windows.ImplMonitor.new h n with
    | error e =>
      simp [Windows.monitorLoop, hnew, List.filterMap_cons, Except.toOption,
        ih]
    | ok m =>
      simp [Windows.monitorLoop, hnew, List.filterMap_cons, Except.toOption,
        ih]

/-- The Windows enumeration loop logs one diagnostic per native entry whose
construction failed. -/
theorem Windows.monitorLoop_logs :
    ∀ es : List (Int × Windows.MonitorNative),
      (Windows.monitorLoop es).2.length
        = es.countP
            (fun p => (Windows.ImplMonitor.new p.1 p.2).toOption.isNone)
  | [] => rfl
  | (h, n) :: rest => by
    have ih := Windows.monitorLoop_logs rest
    cases hnew : Windows.ImplMonitor.new h n with
    | error e =>
      simp [Windows.monitorLoop, hnew, List.countP_cons, Except.toOption, ih]
    | ok m =>
      simp [Windows.monitorLoop, hnew, List.countP_cons, Except.toOption, ih]

/-- The windows collected by the macOS enumeration loop from index i on are
exactly the per-entry results of the loop body over the indexed remainder of
the native list. -/
theorem MacOS.windowLoop_filterMap (ms : List MacOS.ImplMonitor)
    (pm : Option MacOS.ImplMonitor) (n : Nat) :
    ∀ (i : Nat) (es : List (Option MacOS.WindowDict)),
      (MacOS.windowLoop ms pm n i es).1
        = (es.enumFrom i).filterMap
            (fun p => (MacOS.processEntry ms pm n p.1 p.2).1)
  | _, [] => rfl
  | i, e :: rest => by
    have ih := MacOS.windowLoop_filterMap ms pm n (i + 1) rest
    simp only [MacOS.windowLoop, List.enumFrom_cons, List.filterMap_cons]
    rcases hpe : (MacOS.processEntry ms pm n i e).1 with _ | w
    · simp [hpe, ih]
    · simp [hpe, ih]

/-- The diagnostics the macOS enumeration loop emits from index i on are the
concatenation of the per-entry diagnostics of the loop body over the indexed
remainder of the native list. -/
theorem MacOS.windowLoop_logs_flat (ms : List MacOS.ImplMonitor)
    (pm : Option MacOS.ImplMonitor) (n : Nat) :
    ∀ (i : Nat) (es : List (Option MacOS.WindowDict)),
      (MacOS.windowLoop ms pm n i es).2
        = (es.enumFrom i).flatMap
            (fun p => (MacOS.processEntry ms pm n p.1 p.2).2)
  | _, [] => rfl
  | i, e :: rest => by
    have ih := MacOS.windowLoop_logs_flat ms pm n (i + 1) rest
    simp only [MacOS.windowLoop, List.enumFrom_cons, List.flatMap_cons, ih]

/-- One loop iteration logs either nothing, or exactly the single
construction-failure diagnostic, the latter exactly when the entry passed
every decode and filter and ImplWindow::new failed on it. -/
theorem MacOS.processEntry_log_cases (ms : List MacOS.ImplMonitor)
    (pm : Option MacOS.ImplMonitor) (n i : Nat)
    (e : Option MacOS.WindowDict) :
    (MacOS.processEntry ms pm n i e).2 = [] ∨
      ((MacOS.processEntry ms pm n i e).2 = [MacOS.logWindowNewFailed]
        ∧ ∃ dict nm own st, e = some dict ∧ dict.name = some nm
          ∧ dict.ownerName = some own
          ∧ (nm == "StatusIndicator" && own == "Window Server") = false
          ∧ dict.sharingState = some st
          ∧ (i32ToU32 st == MacOS.kCGWindowSharingNone) = false
          ∧ MacOS.ImplWindow.new dict ms nm own
              ((n : Int) - (i : Int) - 1) pm = none) := by
  rcases e with _ | dict
  · left; rfl
  · rcases hn : dict.name with _ | nm
    · left; simp [MacOS.processEntry, hn]
    · rcases ho : dict.ownerName with _ | own
      · left; simp [MacOS.processEntry, hn, ho]
      · cases hstat : (nm == "StatusIndicator" && own == "Window Server")
        · rcases hs : dict.sharingState with _ | st
          · left; simp [MacOS.processEntry, hn, ho, hstat, hs]
          · cases hst : (ScreenCapturer.i32ToU32 st
                == MacOS.kCGWindowSharingNone)
            · rcases hnew : MacOS.ImplWindow.new dict ms nm own
                  ((n : Int) - (i : Int) - 1) pm with _ | w2
              · right
                refine ⟨?_, dict, nm, own, st, rfl, hn, ho, hstat, hs, hst,
                  hnew⟩
                simp [MacOS.processEntry, hn, ho, hstat, hs, hst, hnew]
              · left
                simp [MacOS.processEntry, hn, ho, hstat, hs, hst, hnew]
            · left; simp [MacOS.processEntry, hn, ho, hstat, hs, hst]
        · left; simp [MacOS.processEntry, hn, ho, hstat]

/-- The number of primaries among the monitors the Windows enumeration loop
returns equals the number of native entries that construct successfully with
the primary flag set. -/
theorem Windows.monitorLoop_primary_count :
    ∀ es : List (Int × Windows.MonitorNative),
      ((Windows.monitorLoop es).1.countP fun m => m.is_primary)
        = es.countP (fun p =>
            ((Windows.ImplMonitor.new p.1 p.2).toOption.map
              fun m => m.is_primary).getD false)
  | [] => rfl
  | (h, n) :: rest => by
    have ih := Windows.monitorLoop_primary_count rest
    cases hnew : Windows.ImplMonitor.new h n with
    | error e =>
      simp [Windows.monitorLoop, hnew, List.countP_cons, Except.toOption, ih]
    | ok m =>
      simp [Windows.monitorLoop, hnew, List.countP_cons, Except.toOption, ih]

/-- get_scale_factor never fails: the hi-DPI error path falls back to the
device-context ratio and returns Ok. -/
theorem Windows.get_scale_factor_total (native : Windows.DpiNative) :
    ∃ v, Windows.get_scale_factor native = .ok v := by
  unfold Windows.get_scale_factor
  cases Windows.get_hi_dpi_scale_factor native with
  | ok v => exact ⟨v, rfl⟩
  | error e =>
    exact ⟨(native.desktopHorzRes : ℚ) / (native.horzRes : ℚ), rfl⟩

/-! Claim theorems. -/

/-- C4: capture_screen and capture_screen_area select the Wayland backend
exactly when XDG_SESSION_TYPE equals "wayland" or the lowercase form of
WAYLAND_DISPLAY contains "wayland", and otherwise the X11 backend; selection
always resolves to exactly one backend with no error case, and capture
dispatches to the selected backend's adapter. -/
theorem linux_backend_selection (xdg wd : Option String) :
    (Linux.captureScreenBackend xdg wd = Linux.Backend.wayland ↔
      ((xdg.getD "") = "wayland" ∨
        strContains ((wd.getD "").toLower) "wayland" = true))
    ∧ (Linux.captureScreenBackend xdg wd = Linux.Backend.wayland ∨
        Linux.captureScreenBackend xdg wd = Linux.Backend.xorg)
    ∧ Linux.captureScreenAreaBackend xdg wd = Linux.captureScreenBackend xdg wd
    ∧ (∀ (Image : Type) (wres xres : Option Image),
        Linux.captureScreen xdg wd wres xres =
          (if Linux.waylandDetect xdg wd then wres else xres,
            Linux.captureScreenBackend xdg wd)) := by
  refine ⟨?_, ?_, rfl, ?_⟩
  · have hiff : Linux.waylandDetect xdg wd = true ↔
        ((xdg.getD "") = "wayland" ∨
          strContains ((wd.getD "").toLower) "wayland" = true) := by
      simp [Linux.waylandDetect]
    rw [← hiff]
    simp only [Linux.captureScreenBackend]
    by_cases h : Linux.waylandDetect xdg wd = true
    · simp [h]
    · simp only [Bool.not_eq_true] at h
      simp [h]
  · by_cases h : Linux.waylandDetect xdg wd = true
    · left; simp [Linux.captureScreenBackend, h]
    · right; simp only [Bool.not_eq_true] at h
      simp [Linux.captureScreenBackend, h]
  · intro Image wres xres
    by_cases h : Linux.waylandDetect xdg wd = true
    · simp [Linux.captureScreen, Linux.captureScreenBackend, h]
    · simp only [Bool.not_eq_true] at h
      simp [Linux.captureScreen, Linux.captureScreenBackend, h]

/-- C1 counterexample: with a native front-to-back list of two entries whose
second entry is skipped (its kCGWindowName lookup fails), the single returned
window keeps z = count - 1 - 0 = 1, so the returned z values [1] are not a
permutation of 0 .. n - 1 for n = 1 returned windows. -/
theorem macos_window_z_order_counterexample :
    ((MacOS.ImplWindow.all (.ok [MacOS.mon0]) (some MacOS.mon0)
        (some [some MacOS.goodDict, some MacOS.noNameDict])).toOption.map
      fun out => out.1.map fun w => w.z) = some [1]
    ∧ ¬ (([(1 : Int)]).Perm
        ((List.range 1).map fun (j : Nat) => (j : Int))) := by
  exact ⟨rfl, by decide⟩

/-- C1 as amended: every returned window's z-index equals
count - 1 - its position in the native list (count = native list length), the
returned z values are strictly decreasing distinct values drawn from
0 .. count - 1, and they are a permutation of 0 .. n - 1 (n = number of
returned windows) whenever no native entry was skipped, i.e. when n equals
the native count; the frontmost surviving native entry carries the largest
returned z-index. -/
theorem macos_window_z_order (ms : List MacOS.ImplMonitor)
    (pm : Option MacOS.ImplMonitor) (arr : List (Option MacOS.WindowDict))
    (out : List MacOS.ImplWindow × List String)
    (hall : MacOS.ImplWindow.all (.ok ms) pm (some arr) = .ok out) :
    (∀ w ∈ out.1, ∃ i, i < arr.length
        ∧ w.z = (arr.length : Int) - 1 - (i : Int))
    ∧ (out.1.map fun w => w.z).Pairwise (fun a b => b < a)
    ∧ (out.1.length = arr.length →
        (out.1.map fun w => w.z).Perm
          ((List.range arr.length).map fun (j : Nat) => (j : Int)))
    ∧ (∀ (i : Nat) (e : Option MacOS.WindowDict) (w : MacOS.ImplWindow),
        (MacOS.processEntry ms pm arr.length i e).1 = some w →
        w.z = (arr.length : Int) - 1 - (i : Int)) := by
  simp only [MacOS.ImplWindow.all, Except.ok.injEq] at hall
  subst hall
  have hsub := MacOS.windowLoop_z_sublist ms pm arr.length 0 arr
  refine ⟨?_, ?_, ?_, ?_⟩
  · intro w hw
    have hmapmem : w.z ∈ (MacOS.windowLoop ms pm arr.length 0 arr).1.map
        (fun w => w.z) := List.mem_map_of_mem _ hw
    obtain ⟨j, hj, hjz⟩ := List.mem_map.mp (hsub.subset hmapmem)
    have hj2 : 0 ≤ j ∧ j < 0 + arr.length := List.mem_range'_1.mp hj
    exact ⟨j, by omega, hjz.symm⟩
  · have hpair : ((List.range' 0 arr.length).map
        fun (j : Nat) => (arr.length : Int) - 1 - (j : Int)).Pairwise
          (fun a b => b < a) :=
      List.Pairwise.map _ (fun a b hab => by omega)
        (List.pairwise_lt_range' 0 arr.length)
    exact List.Pairwise.sublist hsub hpair
  · intro hlen
    have hlen2 : ((MacOS.windowLoop ms pm arr.length 0 arr).1.map
        fun w => w.z).length = ((List.range' 0 arr.length).map
          fun (j : Nat) => (arr.length : Int) - 1 - (j : Int)).length := by
      simp [hlen]
    rw [hsub.eq_of_length hlen2]
    rw [show List.range' 0 arr.length = List.range arr.length from
      (List.range_eq_range' _).symm]
    exact range_desc_perm arr.length
  · intro i e w hpe
    have := MacOS.processEntry_z ms pm arr.length i e w hpe
    omega

/-- Witness for C1's amended statement on the singleton native list holding
goodDict: the z values are strictly decreasing and, with no entry skipped,
a permutation of 0 .. 0. -/
theorem macos_window_z_order_witness :
    ((MacOS.outC1.1.map fun w => w.z).Pairwise (fun a b => b < a))
    ∧ (MacOS.outC1.1.map fun w => w.z).Perm
        ((List.range 1).map fun (j : Nat) => (j : Int)) :=
  ⟨(macos_window_z_order [MacOS.mon0] (some MacOS.mon0) [some MacOS.goodDict]
      MacOS.outC1 rfl).2.1,
    (macos_window_z_order [MacOS.mon0] (some MacOS.mon0) [some MacOS.goodDict]
      MacOS.outC1 rfl).2.2.1 rfl⟩

/-- C2: for every window produced by construction, is_maximized holds exactly
when the window's width and height each reach its associated monitor's width
and height, is_minimized holds exactly when the OS reports the window as not
on-screen and it is not judged maximized, and the two flags are never both
true; the never-both-true invariant extends to every window returned by the
enumeration. -/
theorem macos_window_state_flags :
    (∀ (dict : MacOS.WindowDict) (ms : List MacOS.ImplMonitor)
        (nm own : String) (z : Int) (pm : Option MacOS.ImplMonitor)
        (w : MacOS.ImplWindow) (b : Bool),
      MacOS.ImplWindow.new dict ms nm own z pm = some w →
      dict.isOnscreen = some b →
      (w.is_maximized
          = (decide (w.current_monitor.width ≤ w.width)
              && decide (w.current_monitor.height ≤ w.height)))
      ∧ (w.is_minimized = (!b && !w.is_maximized))
      ∧ ¬(w.is_minimized = true ∧ w.is_maximized = true))
    ∧ (∀ (mres : Except String (List MacOS.ImplMonitor))
        (pm : Option MacOS.ImplMonitor)
        (native : Option (List (Option MacOS.WindowDict)))
        (out : List MacOS.ImplWindow × List String),
      MacOS.ImplWindow.all mres pm native = .ok out →
      ∀ w ∈ out.1, ¬(w.is_minimized = true ∧ w.is_maximized = true)) := by
  constructor
  · intro dict ms nm own z pm w b hnew hons
    obtain ⟨a, b2, r, p, os, _, _, _, _, hos, hw⟩ :=
      (MacOS.ImplWindow.new_some_iff dict ms nm own z pm w).mp hnew
    have hosb : os = b := by
      rw [hons] at hos
      exact ((Option.some.injEq _ _).mp hos).symm
    subst hosb
    subst hw
    refine ⟨rfl, rfl, ?_⟩
    exact MacOS.ImplWindow.newCore_not_both a b2 r os p ms nm own z
  · intro mres pm native out hall w hmem
    rcases mres with e | ms
    · simp [MacOS.ImplWindow.all] at hall
    · rcases native with _ | arr
      · simp only [MacOS.ImplWindow.all, Except.ok.injEq] at hall
        subst hall
        simp at hmem
      · simp only [MacOS.ImplWindow.all, Except.ok.injEq] at hall
        subst hall
        obtain ⟨dict, nm, own, z, hnew⟩ :=
          MacOS.windowLoop_mem_new ms pm arr.length 0 arr w hmem
        obtain ⟨a, b2, r, p, os, _, _, _, _, _, hw⟩ :=
          (MacOS.ImplWindow.new_some_iff dict ms nm own z pm w).mp hnew
        subst hw
        exact MacOS.ImplWindow.newCore_not_both a b2 r os p ms nm own z

/-- Witness for C2 at the concrete entry goodDict on the single monitor
mon0: the produced window is not both minimized and maximized. -/
theorem macos_window_state_flags_witness :
    ¬(MacOS.w0.is_minimized = true ∧ MacOS.w0.is_maximized = true) :=
  (macos_window_state_flags.1 MacOS.goodDict [MacOS.mon0] "A" "App" 1
    (some MacOS.mon0) MacOS.w0 true rfl rfl).2.2

/-- C7 counterexample: monitor resolution is not a two-pass center-first
search. Over the monitor list [mA, mB], the window c7rect has its center
inside mB only, while its rectangle intersects mA; the code's single
disjunctive pass picks mA (id 1), whereas the claimed center-first
resolution picks mB (id 2). -/
theorem macos_window_monitor_resolution_counterexample :
    ((MacOS.ImplWindow.new MacOS.c7dict [MacOS.mA, MacOS.mB] "W" "O" 0
        (some MacOS.mB)).map fun w => w.current_monitor.id) = some 1
    ∧ MacOS.mA.bounds.containsPoint
        ⟨MacOS.c7rect.x + MacOS.c7rect.w / 2,
          MacOS.c7rect.y + MacOS.c7rect.h / 2⟩ = false
    ∧ MacOS.mB.bounds.containsPoint
        ⟨MacOS.c7rect.x + MacOS.c7rect.w / 2,
          MacOS.c7rect.y + MacOS.c7rect.h / 2⟩ = true
    ∧ (1 : Nat) ≠ MacOS.mB.id := by
  have hcontA : MacOS.mA.bounds.containsPoint
      ⟨MacOS.c7rect.x + MacOS.c7rect.w / 2,
        MacOS.c7rect.y + MacOS.c7rect.h / 2⟩ = false := by
    norm_num [MacOS.CGRect.containsPoint, MacOS.mA, MacOS.c7rect]
  have hcontB : MacOS.mB.bounds.containsPoint
      ⟨MacOS.c7rect.x + MacOS.c7rect.w / 2,
        MacOS.c7rect.y + MacOS.c7rect.h / 2⟩ = true := by
    norm_num [MacOS.CGRect.containsPoint, MacOS.mB, MacOS.c7rect]
  have hintA : MacOS.mA.bounds.intersects MacOS.c7rect = true := by
    norm_num [MacOS.CGRect.intersects, MacOS.mA, MacOS.c7rect]
  have hpredA : (MacOS.mA.bounds.containsPoint
      ⟨MacOS.c7rect.x + MacOS.c7rect.w / 2,
        MacOS.c7rect.y + MacOS.c7rect.h / 2⟩
      || MacOS.mA.bounds.intersects MacOS.c7rect) = true := by
    rw [hintA, Bool.or_true]
  refine ⟨?_, hcontA, hcontB, by decide⟩
  have hstep : MacOS.ImplWindow.new MacOS.c7dict [MacOS.mA, MacOS.mB] "W" "O" 0
      (some MacOS.mB) = some (MacOS.ImplWindow.newCore 1 1 MacOS.c7rect true
        MacOS.mB [MacOS.mA, MacOS.mB] "W" "O" 0) := rfl
  have hcm : (MacOS.ImplWindow.newCore 1 1 MacOS.c7rect true MacOS.mB
      [MacOS.mA, MacOS.mB] "W" "O" 0).current_monitor = MacOS.mA := by
    show (([MacOS.mA, MacOS.mB].find? fun m =>
        m.bounds.containsPoint
          ⟨MacOS.c7rect.x + MacOS.c7rect.w / 2,
            MacOS.c7rect.y + MacOS.c7rect.h / 2⟩
          || m.bounds.intersects MacOS.c7rect).getD MacOS.mB) = MacOS.mA
    rw [List.find?_cons_of_pos (p := fun (m : MacOS.ImplMonitor) =>
        m.bounds.containsPoint
        ⟨MacOS.c7rect.x + MacOS.c7rect.w / 2,
          MacOS.c7rect.y + MacOS.c7rect.h / 2⟩
        || m.bounds.intersects MacOS.c7rect) _ hpredA]
    rfl
  rw [hstep]
  simp only [Option.map_some']
  rw [hcm]
  rfl

/-- C7 as amended: monitor resolution is a single pass over the monitor list;
the associated monitor is the first whose bounds contain the window's center
point or intersect the window rectangle, and the primary monitor is used only
when no monitor satisfies either test. -/
theorem macos_window_monitor_resolution (dict : MacOS.WindowDict)
    (ms : List MacOS.ImplMonitor) (nm own : String) (z : Int)
    (pm : Option MacOS.ImplMonitor) (w : MacOS.ImplWindow) (r : MacOS.CGRect)
    (p : MacOS.ImplMonitor)
    (hnew : MacOS.ImplWindow.new dict ms nm own z pm = some w)
    (hr : dict.boundsDict = some r) (hpm : pm = some p) :
    w.current_monitor = ((ms.find? fun m =>
        m.bounds.containsPoint ⟨r.x + r.w / 2, r.y + r.h / 2⟩
          || m.bounds.intersects r).getD p) := by
  obtain ⟨a, b, r2, p2, os, _, _, hr2, hp2, _, hw⟩ :=
    (MacOS.ImplWindow.new_some_iff dict ms nm own z pm w).mp hnew
  rw [hr] at hr2
  rw [hpm] at hp2
  have : r2 = r := (Option.some.injEq _ _).mp hr2.symm
  subst this
  have : p2 = p := (Option.some.injEq _ _).mp hp2.symm
  subst this
  subst hw
  rfl

/-- Witness for C7's amended statement at the concrete entry c7dict over
[mA, mB]: the constructed window's monitor is the first single-pass match. -/
theorem macos_window_monitor_resolution_witness :
    MacOS.w7.current_monitor = (([MacOS.mA, MacOS.mB].find? fun m =>
        m.bounds.containsPoint
          ⟨MacOS.c7rect.x + MacOS.c7rect.w / 2,
            MacOS.c7rect.y + MacOS.c7rect.h / 2⟩
          || m.bounds.intersects MacOS.c7rect).getD MacOS.mB) :=
  macos_window_monitor_resolution MacOS.c7dict [MacOS.mA, MacOS.mB] "W" "O" 0
    (some MacOS.mB) MacOS.w7 MacOS.c7rect MacOS.mB rfl rfl rfl

/-- C5 counterexample: when the macOS window-listing call fails (returns a
null array), ImplWindow::all returns success with an empty result instead of
an enumeration error; and an entry missing the required title is skipped
silently, with no diagnostic logged. -/
theorem enumeration_error_handling_counterexample :
    MacOS.ImplWindow.all (.ok [MacOS.mon0]) (some MacOS.mon0) none
      = .ok ([], [])
    ∧ MacOS.processEntry [MacOS.mon0] (some MacOS.mon0) 2 1
        (some MacOS.noNameDict) = (none, []) :=
  ⟨rfl, rfl⟩

/-- C5 as amended: for monitor enumeration, a failed OS listing call fails
the whole operation with an enumeration error, while each native display
whose construction fails is excluded, logged, and enumeration continues.
For macOS window enumeration, a failed (null) listing yields a successful
empty result rather than an error, and the error of the inner monitor
enumeration propagates; entries whose title, owner name or sharing state
cannot be decoded are excluded silently, entries whose record construction
fails are excluded with a logged diagnostic, and in every case enumeration
of the remaining entries continues with the operation succeeding. -/
theorem enumeration_error_handling :
    (Windows.ImplMonitor.all none = .error "EnumDisplayMonitors failed")
    ∧ (∀ es, Windows.ImplMonitor.all (some es)
        = .ok (Windows.monitorLoop es))
    ∧ (∀ es, (Windows.monitorLoop es).1
        = es.filterMap (fun p => (Windows.ImplMonitor.new p.1 p.2).toOption))
    ∧ (∀ es, (Windows.monitorLoop es).2.length
        = es.countP
            (fun p => (Windows.ImplMonitor.new p.1 p.2).toOption.isNone))
    ∧ (∀ e pm native,
        MacOS.ImplWindow.all (.error e) pm native = .error e)
    ∧ (∀ ms pm, MacOS.ImplWindow.all (.ok ms) pm none = .ok ([], []))
    ∧ (∀ ms pm arr, MacOS.ImplWindow.all (.ok ms) pm (some arr)
        = .ok ((arr.enumFrom 0).filterMap
            (fun p => (MacOS.processEntry ms pm arr.length p.1 p.2).1),
          (MacOS.windowLoop ms pm arr.length 0 arr).2))
    ∧ (∀ ms pm n i dict, dict.name = none →
        MacOS.processEntry ms pm n i (some dict) = (none, []))
    ∧ (∀ (ms : List MacOS.ImplMonitor) (pm : Option MacOS.ImplMonitor)
        (n i : Nat) (dict : MacOS.WindowDict) (nm own : String) (st : Int),
        dict.name = some nm → dict.ownerName = some own →
        (nm == "StatusIndicator" && own == "Window Server") = false →
        dict.sharingState = some st →
        (i32ToU32 st == MacOS.kCGWindowSharingNone) = false →
        MacOS.ImplWindow.new dict ms nm own
          ((n : Int) - (i : Int) - 1) pm = none →
        MacOS.processEntry ms pm n i (some dict)
          = (none, [MacOS.logWindowNewFailed]))
    ∧ (∀ (ms : List MacOS.ImplMonitor) (pm : Option MacOS.ImplMonitor)
        (n i : Nat), MacOS.processEntry ms pm n i none = (none, []))
    ∧ (∀ (ms : List MacOS.ImplMonitor) (pm : Option MacOS.ImplMonitor)
        (n i : Nat) (dict : MacOS.WindowDict) (nm : String),
        dict.name = some nm → dict.ownerName = none →
        MacOS.processEntry ms pm n i (some dict) = (none, []))
    ∧ (∀ (ms : List MacOS.ImplMonitor) (pm : Option MacOS.ImplMonitor)
        (n i : Nat) (dict : MacOS.WindowDict) (nm own : String),
        dict.name = some nm → dict.ownerName = some own →
        (nm == "StatusIndicator" && own == "Window Server") = false →
        dict.sharingState = none →
        MacOS.processEntry ms pm n i (some dict) = (none, []))
    ∧ (∀ (ms : List MacOS.ImplMonitor) (pm : Option MacOS.ImplMonitor)
        (n i : Nat) (dict : MacOS.WindowDict) (nm own : String),
        dict.name = some nm → dict.ownerName = some own →
        (nm == "StatusIndicator" && own == "Window Server") = true →
        MacOS.processEntry ms pm n i (some dict) = (none, []))
    ∧ (∀ (ms : List MacOS.ImplMonitor) (pm : Option MacOS.ImplMonitor)
        (n i : Nat) (dict : MacOS.WindowDict) (nm own : String) (st : Int),
        dict.name = some nm → dict.ownerName = some own →
        (nm == "StatusIndicator" && own == "Window Server") = false →
        dict.sharingState = some st →
        (i32ToU32 st == MacOS.kCGWindowSharingNone) = true →
        MacOS.processEntry ms pm n i (some dict) = (none, []))
    ∧ (∀ (ms : List MacOS.ImplMonitor) (pm : Option MacOS.ImplMonitor)
        (n i : Nat) (es : List (Option MacOS.WindowDict)),
        (MacOS.windowLoop ms pm n i es).2
          = (es.enumFrom i).flatMap
              (fun p => (MacOS.processEntry ms pm n p.1 p.2).2))
    ∧ (∀ (ms : List MacOS.ImplMonitor) (pm : Option MacOS.ImplMonitor)
        (n i : Nat) (e : Option MacOS.WindowDict),
        (MacOS.processEntry ms pm n i e).2 = [] ∨
          ((MacOS.processEntry ms pm n i e).2 = [MacOS.logWindowNewFailed]
            ∧ ∃ dict nm own st, e = some dict ∧ dict.name = some nm
              ∧ dict.ownerName = some own
              ∧ (nm == "StatusIndicator" && own == "Window Server") = false
              ∧ dict.sharingState = some st
              ∧ (i32ToU32 st == MacOS.kCGWindowSharingNone) = false
              ∧ MacOS.ImplWindow.new dict ms nm own
                  ((n : Int) - (i : Int) - 1) pm = none)) := by
  refine ⟨rfl, fun es => rfl, Windows.monitorLoop_windows,
    Windows.monitorLoop_logs, fun e pm native => rfl, fun ms pm => rfl,
    ?_, ?_, ?_, fun ms pm n i => rfl, ?_, ?_, ?_, ?_,
    MacOS.windowLoop_logs_flat, MacOS.processEntry_log_cases⟩
  · intro ms pm arr
    simp only [MacOS.ImplWindow.all]
    rw [← MacOS.windowLoop_filterMap ms pm arr.length 0 arr]
  · intro ms pm n i dict hn
    simp [MacOS.processEntry, hn]
  · intro ms pm n i dict nm own st hn ho hstat hs hst hnew
    simp [MacOS.processEntry, hn, ho, hstat, hs, hst, hnew]
  · intro ms pm n i dict nm hn ho
    simp [MacOS.processEntry, hn, ho]
  · intro ms pm n i dict nm own hn ho hstat hs
    simp [MacOS.processEntry, hn, ho, hstat, hs]
  · intro ms pm n i dict nm own hn ho hstat
    simp [MacOS.processEntry, hn, ho, hstat]
  · intro ms pm n i dict nm own st hn ho hstat hs hst
    simp [MacOS.processEntry, hn, ho, hstat, hs, hst]

/-- Witness for C5's amended statement: the entry newFailDict survives every
filter but its construction fails, so the loop body excludes it and logs the
diagnostic. -/
theorem enumeration_error_handling_witness :
    MacOS.processEntry [MacOS.mon0] (some MacOS.mon0) 3 0
      (some MacOS.newFailDict) = (none, [MacOS.logWindowNewFailed]) :=
  enumeration_error_handling.2.2.2.2.2.2.2.2.1 [MacOS.mon0] (some MacOS.mon0)
    3 0 MacOS.newFailDict "A" "App" 1 rfl rfl rfl rfl rfl rfl

/-- C6 counterexample: with two native displays, one flagged primary by the
OS but failing construction and one unflagged and succeeding, the returned
enumeration has zero primary monitors, not exactly one, and no fallback
primary is synthesized. -/
theorem windows_monitor_primary_flag_counterexample :
    ((Windows.ImplMonitor.all (some [(1, Windows.primNativeBad),
        (2, Windows.secNativeGood)])).toOption.map
      fun out => out.1.countP fun m => m.is_primary) = some 0
    ∧ Windows.primNativeBad.monitorInfo
        = some ⟨Windows.MONITORINFOF_PRIMARY, "D1"⟩
    ∧ (0 : Nat) ≠ 1 :=
  ⟨rfl, rfl, by decide⟩

/-- C6 as amended: each returned monitor's is_primary mirrors the OS flag
word (equality with MONITORINFOF_PRIMARY); the enumeration neither enforces
uniqueness nor synthesizes a fallback primary, so the number of primaries
returned equals the number of native displays that construct successfully
with the primary flag set. -/
theorem windows_monitor_primary_flag :
    (∀ es, ((Windows.monitorLoop es).1.countP fun m => m.is_primary)
        = es.countP (fun p =>
            ((Windows.ImplMonitor.new p.1 p.2).toOption.map
              fun m => m.is_primary).getD false))
    ∧ (∀ (h : Int) (n : Windows.MonitorNative) (m : Windows.ImplMonitor),
        Windows.ImplMonitor.new h n = .ok m →
        n.monitorInfo = some m.monitor_info_ex_w
        ∧ m.is_primary
            = (m.monitor_info_ex_w.dwFlags == Windows.MONITORINFOF_PRIMARY)) := by
  refine ⟨Windows.monitorLoop_primary_count, ?_⟩
  intro h n m hnew
  rcases hi : n.monitorInfo with _ | info
  · simp [Windows.ImplMonitor.new, hi] at hnew
  · rcases hd : n.devMode with _ | dm
    · simp [Windows.ImplMonitor.new, hi, hd] at hnew
    · rcases hs : Windows.get_scale_factor n.dpi with e | v
      · simp [Windows.ImplMonitor.new, hi, hd, hs] at hnew
      · simp only [Windows.ImplMonitor.new, hi, hd, hs,
          Except.ok.injEq] at hnew
        subst hnew
        exact ⟨rfl, rfl⟩

/-- Witness for C6's amended statement at the successfully constructed
monitor mSec: its flag word is the OS record's and is_primary is the flag
equality test. -/
theorem windows_monitor_primary_flag_witness :
    Windows.secNativeGood.monitorInfo = some Windows.mSec.monitor_info_ex_w
    ∧ Windows.mSec.is_primary
        = (Windows.mSec.monitor_info_ex_w.dwFlags
            == Windows.MONITORINFOF_PRIMARY) :=
  windows_monitor_primary_flag.2 2 Windows.secNativeGood Windows.mSec rfl

/-- C8: the scale factor equals reported DPI / 96 when the process is DPI
aware and the native query chain succeeds; when the awareness check reports
not aware, or any step of the hi-DPI query fails, it equals the ratio of
physical to logical device-pixel width from the scoped device context; and
the operation never fails. -/
theorem windows_scale_factor (native : Windows.DpiNative) :
    (∀ q : Nat, native.processIsDpiAwareness = .ok true →
        native.shcore = .ok () →
        native.getDpiForMonitorAddr = true →
        native.dpiQuery = .ok q →
        Windows.get_scale_factor native = .ok ((q : ℚ) / 96))
    ∧ (∀ e, Windows.get_hi_dpi_scale_factor native = .error e →
        Windows.get_scale_factor native
          = .ok ((native.desktopHorzRes : ℚ) / (native.horzRes : ℚ)))
    ∧ (native.processIsDpiAwareness = .ok false →
        Windows.get_scale_factor native
          = .ok ((native.desktopHorzRes : ℚ) / (native.horzRes : ℚ)))
    ∧ (∃ v, Windows.get_scale_factor native = .ok v) := by
  refine ⟨?_, ?_, ?_, Windows.get_scale_factor_total native⟩
  · intro q ha hsh hga hq
    have hhi : Windows.get_hi_dpi_scale_factor native
        = .ok ((q : ℚ) / 96) := by
      simp [Windows.get_hi_dpi_scale_factor, ha, hsh, hga, hq]
    simp [Windows.get_scale_factor, hhi]
  · intro e hhi
    simp [Windows.get_scale_factor, hhi]
  · intro ha
    have hhi : Windows.get_hi_dpi_scale_factor native
        = .error "Process not DPI aware" := by
      simp [Windows.get_hi_dpi_scale_factor, ha]
    simp [Windows.get_scale_factor, hhi]

/-- Witness for C8 with a DPI-aware process reporting 96 dpi: the scale
factor is 96 / 96. -/
theorem windows_scale_factor_witness :
    Windows.get_scale_factor Windows.dpiAware96
      = .ok (((96 : Nat) : ℚ) / 96) :=
  (windows_scale_factor Windows.dpiAware96).1 96 rfl rfl rfl rfl

/-- C9 counterexample: the BoxHDC From conversion for a window wraps the
GetWindowDC result unconditionally, so an invalid (null) handle is returned
inside a guard with no error and the caller is not informed. -/
theorem guard_invalid_handle_counterexample :
    (Windows.BoxHDC.fromImplWindow 0).hdc = 0
    ∧ Windows.hdcIsInvalid 0 = true :=
  ⟨rfl, rfl⟩

/-- C9 as amended: BoxMonitorHDC::new checks the obtained device context and
fails with a resource-acquisition error before returning a guard, and a guard
it returns never holds an invalid handle; the BoxHDC From conversions
perform no validity check and return a guard wrapping the obtained handle,
valid or not, without informing the caller. -/
theorem guard_invalid_handle (hwnd hdc : Int) :
    (Windows.hdcIsInvalid hdc = true →
      Windows.BoxMonitorHDC.new hwnd hdc = .error "GetDC is failed")
    ∧ (∀ g, Windows.BoxMonitorHDC.new hwnd hdc = .ok g →
        Windows.hdcIsInvalid g.hdc = false ∧ g.hdc = hdc ∧ g.hwnd = hwnd)
    ∧ (Windows.BoxHDC.fromImplWindow hdc).hdc = hdc
    ∧ (Windows.BoxHDC.fromSzDevice hdc).hdc = hdc := by
  refine ⟨?_, ?_, rfl, rfl⟩
  · intro h
    simp [Windows.BoxMonitorHDC.new, h]
  · intro g hg
    by_cases h : Windows.hdcIsInvalid hdc = true
    · simp [Windows.BoxMonitorHDC.new, h] at hg
    · simp only [Bool.not_eq_true] at h
      simp only [Windows.BoxMonitorHDC.new, h, Bool.false_eq_true, if_false,
        Except.ok.injEq] at hg
      subst hg
      exact ⟨h, rfl, rfl⟩

/-- Witness for C9's amended statement: acquiring the desktop-window device
context with a null GetDC result fails with the resource-acquisition
error. -/
theorem guard_invalid_handle_witness :
    Windows.BoxMonitorHDC.new 3 0 = .error "GetDC is failed" :=
  (guard_invalid_handle 3 0).1 rfl

/-- C10: when decoding the monitor's human-readable name fails, construction
still succeeds, the name falls back to "Unknown Monitor " followed by the
handle value as u32, and every other field is populated exactly as when the
name decodes. -/
theorem windows_monitor_name_fallback (h : Int)
    (info : Windows.MonitorInfoExW) (dm : Windows.DevModeW)
    (dpi : Windows.DpiNative) (s : String) :
    ((Windows.ImplMonitor.new h ⟨some info, none, some dm, dpi⟩).toOption.map
        fun m => m.name)
      = some ("Unknown Monitor " ++ toString (i32ToU32 h))
    ∧ ((Windows.ImplMonitor.new h
          ⟨some info, none, some dm, dpi⟩).toOption.map
        fun m => { m with name := "N" })
      = ((Windows.ImplMonitor.new h
          ⟨some info, some s, some dm, dpi⟩).toOption.map
        fun m => { m with name := "N" }) := by
  obtain ⟨v, hv⟩ := Windows.get_scale_factor_total dpi
  constructor
  · simp [Windows.ImplMonitor.new, hv, Except.toOption]
  · simp [Windows.ImplMonitor.new, hv, Except.toOption]

/-- C3: each guard's Drop invokes its fixed destructor exactly once on every
scope exit, success or early error return, and that destructor matches the
resource kind for the created-DC, bitmap and desktop-window-DC guards; but
the BoxHDC guard built From an ImplWindow wraps a GetWindowDC window DC and
its Drop still invokes DeleteDC, not the ReleaseDC the resource kind
requires, so the claimed destructor correctness fails on that path. -/
theorem resource_guard_destructor_bug :
    Windows.gdiCallKind (Windows.BoxHDC.fromImplWindow 5).dropCall
      = Windows.DestructorKind.deleteDC
    ∧ Windows.specCorrectDestructor Windows.boxHDCFromImplWindowKind
        = Windows.DestructorKind.releaseDC
    ∧ Windows.gdiCallKind (Windows.BoxHDC.fromImplWindow 5).dropCall
        ≠ Windows.specCorrectDestructor Windows.boxHDCFromImplWindowKind
    ∧ Windows.gdiCallKind (Windows.BoxHDC.fromSzDevice 6).dropCall
        = Windows.specCorrectDestructor Windows.boxHDCFromSzDeviceKind
    ∧ Windows.gdiCallKind (Windows.BoxHBITMAP.dropCall ⟨7⟩)
        = Windows.specCorrectDestructor Windows.ResourceKind.bitmap
    ∧ Windows.gdiCallKind (Windows.BoxMonitorHDC.dropCall ⟨3, 8⟩)
        = Windows.specCorrectDestructor Windows.boxMonitorHDCKind
    ∧ (∀ (d : Windows.GdiCall) (res : Except String Unit)
        (calls : List Windows.GdiCall),
        (Windows.scopeExit d res calls).2.count d = calls.count d + 1
        ∧ (Windows.scopeExit d res calls).1 = res) := by
  refine ⟨rfl, rfl, by decide, rfl, rfl, rfl, ?_⟩
  intro d res calls
  exact ⟨by simp [Windows.scopeExit, List.count_append], rfl⟩

end ScreenCapturer
